import Mathlib

/-!
Verification development for the legistar scraper core
(`legistar/base/field.py`, `legistar/bills.py`, `legistar/old/people.py`).

Python `dict`s are modelled as partial maps `String → Option String` (the
claims under study concern key membership and the values stored under keys,
never iteration order).  `dict(base, **upd)` is `dictUpdate base upd`
(entries of `upd` win), `d.pop(k, None)` is `dictPop d k`, and a dict
literal is a chain of `dictInsert`s applied in source order (later entries
win on key collision, as in Python).
-/

namespace Legistar

/-- A Python dict with string keys and string values, viewed as a partial map. -/
def PyDict : Type := String → Option String

/-- The empty dict `{}`. -/
def dictEmpty : PyDict := fun _ => none

/-- `d[k] = v` (also one entry of a dict literal). -/
def dictInsert (d : PyDict) (k v : String) : PyDict :=
  fun q => if q = k then some v else d q

/-- `dict(base, **upd)` / `base.update(upd)`: entries of `upd` win on collision. -/
def dictUpdate (base upd : PyDict) : PyDict :=
  fun q => match upd q with
  | some v => some v
  | none => base q

/-- `d.pop(k, None)`: the dict with key `k` removed. -/
def dictPop (d : PyDict) (k : String) : PyDict :=
  fun q => if q = k then none else d q

/-- Python `x or default` on an optional string: `None` and the empty string
are falsy, any other string is returned unchanged. -/
def pyOr (a : Option String) (b : String) : String :=
  match a with
  | none => b
  | some s => if s = "" then b else s

/-! ### BillsSearchForm (`legistar/bills.py`)

The jurisdiction configuration reads (`configval = self.get_config_value`)
are modelled by a total function `configval : String → String`; a missing
configuration key is a fatal setup error outside these claims (it is the
subject of `get_config_value_spec` below, over the `FieldAggregator`
embedding).  The client session state `self.client.state` is the `state`
argument.  Keyword arguments `**kwargs` are a `PyDict` of caller overrides.
-/

/-- `BillsSearchForm.get_query_simple`: the query for the simple search page.
The dict literal is built in source order, then updated with the caller's
overrides, then merged over the client state (`dict(self.client.state, **query)`). -/
def get_query_simple (state : PyDict) (configval : String → String)
    (time_period bodies : Option String) (kwargs : PyDict) : PyDict :=
  let tp := pyOr time_period (configval "time_period")
  let bd := pyOr bodies (configval "types")
  let query := dictInsert dictEmpty "ctl00_tabTop_ClientState"
    "\x7b\"selectedIndexes\":[\"1\"],\"logEntries\":[],\"scrollState\":\x7b\x7d\x7d"
  let query := dictInsert query "ctl00_RadScriptManager1_TSM"
    ";;System.Web.Extensions, Version=4.0.0.0, Culture=neutral, PublicKeyToken=31bf3856ad364e35:en-US:fa6755fd-da1a-49d3-9eb4-1e473e780ecd:ea597d4b:b25378d2;Telerik.Web.UI, Version=2014.1.403.45, Culture=neutral, PublicKeyToken=121fae78165ba3d4:en-US:68d9452f-f268-45b2-8db7-8c3bbf305b8d:16e4e7cd:f7645509:24ee1bba:e330518b:88144a7a:1e771326:8e6f0d33:ed16cbdc:f46195d3:19620875:874f8ea2:cda80b3:383e4ce8:2003d0b8:aa288e2d:258f1c72:c128760b:c8618e41:1a73651d:333f8d94:58366029"
  let query := dictInsert query (configval "types_el_name") bd
  let query := dictInsert query (configval "time_period_el_name") tp
  let query := dictInsert query (configval "button_el_name") (configval "button")
  let query := dictInsert query (configval "id_el_name") (configval "id")
  let query := dictInsert query (configval "text_el_name") (configval "text")
  let query := dictUpdate query kwargs
  dictUpdate state query

set_option linter.unusedVariables false in
/-- `BillsSearchForm.get_query_advanced`: the basic query for the advanced
search page.  The `bodies` parameter is accepted but never read by the body. -/
def get_query_advanced (state : PyDict) (configval : String → String)
    (time_period bodies : Option String) (kwargs : PyDict) : PyDict :=
  let tp := pyOr time_period (configval "time_period")
  let query := dictInsert dictEmpty "ctl00$ContentPlaceHolder1$btnSearch2" "Search Legislation"
  let query := dictInsert query "ctl00$ContentPlaceHolder1$lstMax" "All"
  let query := dictInsert query "ctl00$ContentPlaceHolder1$lstYearsAdvanced" tp
  let query := dictUpdate query kwargs
  dictUpdate state query

/-- `BillsSearchForm.get_query`: switches to the advanced search mode if the
default page is the simple interface (a network round trip that replaces the
document and client state; `state` here is the client state after that
round trip) and then delegates to `get_query_advanced`. -/
def get_query (state : PyDict) (configval : String → String)
    (time_period bodies : Option String) (kwargs : PyDict) : PyDict :=
  get_query_advanced state configval time_period bodies kwargs

/-- `BillsSearchForm.get_pagination_query`: the query for the next page,
derived from `get_query` by popping the max-results client state and the
initial submit button, then re-merged over the client state. -/
def get_pagination_query (state : PyDict) (configval : String → String)
    (time_period bodies : Option String) (kwargs : PyDict) : PyDict :=
  let query := get_query state configval time_period bodies kwargs
  let query := dictPop query "ctl00_ContentPlaceHolder1_lstMax_ClientState"
  let query := dictPop query "ctl00$ContentPlaceHolder1$btnSearch2"
  dictUpdate state query

/-- One element of the fetched document, as seen by the xpath query
`//*[@name="..."]`: only its `name` attribute (absent on elements that
carry none) is relevant. -/
structure Element where
  name : Option String
deriving DecidableEq

/-- `BillsSearchForm.default_search_is_simple`: looks for an element whose
`name` attribute equals the configured advanced-only control name; if one is
present the page is already the advanced interface (returns `false`),
otherwise it is the simple interface (returns `true`). -/
def default_search_is_simple (configval : String → String) (doc : List Element) : Bool :=
  let advanced_id := configval "advanced_time_period_el_name"
  let advanced := !(doc.filter (fun el => el.name == some advanced_id)).isEmpty
  if advanced then false else true

/-! ### FieldAggregator (`legistar/base/field.py`)

The jurisdiction configuration object `self.cfg` is modelled as an
association list `List (String × String)` of attribute names to values
(`getattr` is `List.lookup`; an absent attribute is the fatal
`ConfigurationMissing` error of the spec's taxonomy, Python's
`AttributeError`).  The per-record field-data index `self.field_data` is an
association list from label text to the stored accessor.  The two failure
modes of the error taxonomy are the `ScrapeError` constructors. -/

/-- Python `key.upper()` for the ASCII configuration keys in use, spelled as
a character-wise map (extensionally `String.toUpper`, but structurally
recursive so that concrete instances evaluate inside proofs). -/
def pyUpper (s : String) : String := String.mk (s.data.map Char.toUpper)

/-- The error signals of the extraction layer: `configurationMissing` is the
fatal missing-configuration error, `skipItem` is the per-field control-flow
signal `SkipItem`, and `valueError` is Python's `ValueError` (malformed
input to `datetime.strptime`). -/
inductive ScrapeError where
  | configurationMissing
  | skipItem
  | valueError
deriving DecidableEq

/-- `FieldAggregator.get_config_value(key)`: reads attribute
`'%s_%s' % (KEY_PREFIX, key.upper())` of the jurisdiction config `cfg`. -/
def get_config_value (cfg : List (String × String)) (kp key : String) :
    Except ScrapeError String :=
  let name := kp ++ "_" ++ pyUpper key
  match cfg.lookup name with
  | some v => Except.ok v
  | none => Except.error ScrapeError.configurationMissing

/-- `FieldAggregator.get_label_text(key)`: the configured label text for a
logical field name, `get_config_value ('TEXT_' + key.upper())`. -/
def get_label_text (cfg : List (String × String)) (kp key : String) :
    Except ScrapeError String :=
  get_config_value cfg kp ("TEXT_" ++ pyUpper key)

/-- `FieldAggregator.get_field_data(label_text)`: looks the configured label
text up in the record's field-data index; a missing key raises `SkipItem`. -/
def get_field_data {α : Type} (cfg : List (String × String)) (kp : String)
    (field_data : List (String × α)) (label_text : String) :
    Except ScrapeError α :=
  match get_label_text cfg kp label_text with
  | Except.error e => Except.error e
  | Except.ok key =>
    match field_data.lookup key with
    | some v => Except.ok v
    | none => Except.error ScrapeError.skipItem

/-- A `FieldAccessor` bound to one markup location, reduced to the two
observations the claims need: whether the location is blank, and its text. -/
structure FieldAccessor where
  blank : Bool
  text : String
deriving DecidableEq

/-- `FieldAggregator.get_field_text(label_text)`: the accessor's text, or
`none` when the stored accessor is Python `None` or the field is blank
(the function then falls through and returns `None`). -/
def get_field_text (cfg : List (String × String)) (kp : String)
    (field_data : List (String × Option FieldAccessor)) (label_text : String) :
    Except ScrapeError (Option String) :=
  match get_field_data cfg kp field_data label_text with
  | Except.error e => Except.error e
  | Except.ok none => Except.ok none
  | Except.ok (some acc) =>
    if acc.blank then Except.ok none else Except.ok (some acc.text)

/-- Modelled from the spec: `ItemGenerator` (`legistar/utils/itemgenerator.py`)
is not under `src/`; only its subclass `FieldAggregator` and the decorated
generator methods are.  Per the spec, the declared field generators of a
record are independent units, one per logical output key; a unit either
produces a value or raises `SkipItem`.  A record's declared units are
modelled as the list `units` of (key, evaluation outcome) pairs in
declaration order, `none` meaning the unit raised `SkipItem`; iteration
yields a `(key, value)` pair for each unit that produced a value,
preserving that order. -/
def aggregator_items {α : Type} (units : List (String × Option α)) :
    List (String × α) :=
  units.filterMap (fun u => u.2.map (fun v => (u.1, v)))

/-! ### DateGetter and MembershipAdapter date handling
(`legistar/bills.py`, `legistar/old/people.py`) -/

/-- The date part of a Python `datetime` as produced by
`datetime.strptime(text, '%m/%d/%Y')` (the time part is zero and
`cfg.datetime_add_tz` only attaches a timezone, leaving the date intact). -/
structure PyDatetime where
  year : Nat
  month : Nat
  day : Nat
deriving DecidableEq

/-- Splits a character list at every `/` (the shape `String.splitOn "/"`
takes on these inputs, structurally recursive). -/
def splitOnSlash : List Char → List (List Char)
  | [] => [[]]
  | c :: cs =>
    match splitOnSlash cs with
    | [] => if c = '/' then [[], []] else [[c]]
    | h :: t => if c = '/' then [] :: h :: t else (c :: h) :: t

/-- Parses a nonempty all-digit character list as a decimal number
(`none` otherwise). -/
def digitsToNat : List Char → Option Nat
  | [] => none
  | l => go l 0
where
  go : List Char → Nat → Option Nat
    | [], acc => some acc
    | c :: cs, acc =>
      if c.isDigit then go cs (acc * 10 + (c.toNat - 48)) else none

/-- `datetime.strptime(s, '%m/%d/%Y')`: three `/`-separated decimal fields,
month/day/year, with the usual range checks; `none` models the `ValueError`
on malformed input.  (Only the `'%m/%d/%Y'` format string, the one the
claims exercise, is modelled.) -/
def strptime_mdY (s : String) : Option PyDatetime :=
  match splitOnSlash s.data with
  | [m, d, y] =>
    match digitsToNat m, digitsToNat d, digitsToNat y with
    | some mo, some da, some yr =>
      if 1 ≤ mo ∧ mo ≤ 12 ∧ 1 ≤ da ∧ da ≤ 31 then
        some { year := yr, month := mo, day := da }
      else none
    | _, _, _ => none
  | _ => none

/-- `datetime.strptime(s, fmt)` of the claims: only the configured format
string `'%m/%d/%Y'` is exercised and modelled; any other format is outside
the model.  `none` stands for the `ValueError` strptime raises on a
mismatch. -/
def strptime (fmt s : String) : Option PyDatetime :=
  if fmt = "%m/%d/%Y" then strptime_mdY s else none

/-- Zero-padded two-digit decimal rendering (strftime `%m` / `%d`). -/
def pad2 (n : Nat) : String :=
  if n < 10 then "0" ++ toString n else toString n

/-- `dt.strftime('%Y-%m-%d')` for the dates at hand (four-digit years). -/
def strftime_Ymd (dt : PyDatetime) : String :=
  toString dt.year ++ "-" ++ pad2 dt.month ++ "-" ++ pad2 dt.day

/-- `DateGetter._get_date(label_text)`: reads the configured
`datetime_format`, reads the field's text, and parses it when present
(`none` when the field text was `None`). -/
def date_getter_get_date (cfg : List (String × String)) (kp : String)
    (field_data : List (String × Option FieldAccessor)) (label_text : String) :
    Except ScrapeError (Option PyDatetime) :=
  match get_config_value cfg kp "datetime_format" with
  | Except.error e => Except.error e
  | Except.ok fmt =>
    match get_field_text cfg kp field_data label_text with
    | Except.error e => Except.error e
    | Except.ok none => Except.ok none
    | Except.ok (some text) =>
      match strptime fmt text with
      | some dt => Except.ok (some dt)
      | none => Except.error ScrapeError.valueError

/-- `MembershipAdapter.stringify_date(dt)`: a missing (falsy) datetime raises
`SkipItem`, otherwise the date is rendered with `strftime('%Y-%m-%d')`. -/
def stringify_date (dt : Option PyDatetime) : Except ScrapeError String :=
  match dt with
  | none => Except.error ScrapeError.skipItem
  | some dt => Except.ok (strftime_Ymd dt)

/-! ### MembershipConverter.get_org (`legistar/old/people.py`)

The shared keyed organization cache `self.config.org_cache` is passed and
returned explicitly as an association list from organization name to the
cached object (a Python dict: assigning a fresh key appends an entry).
`self.cfg.get_org_classification` is the `classify` argument and
`self.person.sources` the `person_sources` argument. -/

/-- One source attached to a scraped entity (`dict(url=..., note=...)`). -/
structure PupaSource where
  url : String
  note : String
deriving DecidableEq

/-- A `pupa.scrape.Organization` reduced to the fields `get_org` touches:
its name, classification and accumulated sources (`add_source`). -/
structure Organization where
  name : String
  classification : String
  sources : List PupaSource
deriving DecidableEq

/-- The outcome of one `get_org` call: the `(created, org)` return value,
the organization cache after the call, and an instrumentation flag
recording whether the trailing add-detail-sources branch executed. -/
structure GetOrgResult where
  created : Bool
  org : Organization
  cache : List (String × Organization)
  detailBranch : Bool
deriving DecidableEq

/-- `'detail' in note`: Python substring containment. -/
def containsDetail (note : String) : Bool :=
  (note.splitOn "detail").length > 1

/-- `MembershipConverter.get_org(org_name)`: gets or creates the organization
named `org_name`, caching the result.  On a cache hit the cached object is
returned with `created = False`.  On a miss a new organization is created
with all of the person's sources, cached, and — since the freshly
constructed object is never `None` — returned at the second
`if org is not None` check with `created = True`; the trailing loop that
would add only the sources whose note contains `'detail'` follows that
check on its `else` side (`detailBranch` records whether it ran). -/
def get_org (org_cache : List (String × Organization))
    (classify : String → String) (person_sources : List PupaSource)
    (org_name : String) : GetOrgResult :=
  let created := false
  match org_cache.lookup org_name with
  | some org =>
    -- Cache hit.
    { created := created, org := org, cache := org_cache, detailBranch := false }
  | none =>
    -- Create the org, with every one of the person's sources.
    let org : Organization :=
      { name := org_name, classification := classify org_name,
        sources := person_sources }
    let created := true
    -- Cache it: `orgs[org_name] = org` appends a fresh key.
    let cache := org_cache ++ [(org_name, org)]
    -- `if org is not None: return created, org` — `org` was just constructed.
    if (some org).isSome then
      { created := created, org := org, cache := cache, detailBranch := false }
    else
      -- Add a source to the org (only sources whose note mentions 'detail').
      let org := { org with
        sources := org.sources ++ person_sources.filter (fun s => containsDetail s.note) }
      { created := created, org := org, cache := cache, detailBranch := true }

/-! ### Helper lemmas on association-list lookup -/

/-- Looking up a key in an association list whose keys are pairwise distinct
returns the value of any entry carrying that key. -/
theorem lookup_eq_some_of_mem {α : Type} (l : List (String × α)) (k : String) (v : α)
    (hnd : (l.map Prod.fst).Nodup) (hmem : (k, v) ∈ l) : l.lookup k = some v := by
  induction l with
  | nil => cases hmem
  | cons p t ih =>
    rcases List.mem_cons.mp hmem with h | h
    · subst h
      simp [List.lookup]
    · rw [List.map_cons, List.nodup_cons] at hnd
      obtain ⟨hp, ht⟩ := hnd
      have hne : (k == p.1) = false := by
        rw [beq_eq_false_iff_ne]
        intro hkp
        exact hp (hkp ▸ List.mem_map_of_mem Prod.fst h)
      simp only [List.lookup, hne]
      exact ih ht h

/-- Appending entries does not change the value found under a key of the
first list. -/
theorem lookup_append_of_some {α : Type} (l1 l2 : List (String × α)) (k : String) (v : α)
    (h : l1.lookup k = some v) : (l1 ++ l2).lookup k = some v := by
  induction l1 with
  | nil => simp [List.lookup] at h
  | cons p t ih =>
    by_cases hk : (k == p.1) = true
    · simpa [List.lookup, hk] using h
    · rw [Bool.not_eq_true] at hk
      simp only [List.lookup, hk] at h
      simpa [List.lookup, hk] using ih h

/-- A key absent from the first list is looked up in the second. -/
theorem lookup_append_of_none {α : Type} (l1 l2 : List (String × α)) (k : String)
    (h : l1.lookup k = none) : (l1 ++ l2).lookup k = l2.lookup k := by
  induction l1 with
  | nil => simp
  | cons p t ih =>
    by_cases hk : (k == p.1) = true
    · simp [List.lookup, hk] at h
    · rw [Bool.not_eq_true] at hk
      simp only [List.lookup, hk] at h
      simpa [List.lookup, hk] using ih h

/-- The keys of the produced items are the keys of the units that produced a
value, in declaration order. -/
theorem aggregator_items_keys {α : Type} (units : List (String × Option α)) :
    (aggregator_items units).map Prod.fst
      = (units.filter (fun u => u.2.isSome)).map Prod.fst := by
  induction units with
  | nil => rfl
  | cons u t ih =>
    cases hu : u.2 with
    | none =>
      simpa [aggregator_items, List.filterMap_cons, List.filter_cons, hu] using ih
    | some v =>
      simpa [aggregator_items, List.filterMap_cons, List.filter_cons, hu] using ih

/-- A pair is produced exactly when its unit is declared and did not skip. -/
theorem aggregator_items_mem {α : Type} (units : List (String × Option α))
    (k : String) (v : α) :
    (k, v) ∈ aggregator_items units ↔ (k, some v) ∈ units := by
  simp only [aggregator_items, List.mem_filterMap]
  constructor
  · rintro ⟨⟨k', ov⟩, hmem, hf⟩
    cases ov with
    | none => simp at hf
    | some w =>
      simp only [Option.map_some', Option.some.injEq, Prod.mk.injEq] at hf
      obtain ⟨hk, hv⟩ := hf
      subst hk
      subst hv
      exact hmem
  · intro hmem
    exact ⟨(k, some v), hmem, rfl⟩

/-- A filtered list is empty exactly when no element satisfies the test. -/
theorem filter_isEmpty_eq_not_any {α : Type} (p : α → Bool) (l : List α) :
    (l.filter p).isEmpty = !(l.any p) := by
  induction l with
  | nil => rfl
  | cons a t ih => cases h : p a <;> simp [List.filter_cons, h, ih]

/-! ### Claim theorems -/

/-- C3: for every key, `FieldAggregator.get_config_value key` returns the
jurisdiction configuration value stored under the attribute name
`KEY_PREFIX ++ "_" ++ key.upper()`, and fails with `ConfigurationMissing`
when no configuration entry of that name exists. -/
theorem get_config_value_spec (cfg : List (String × String)) (kp key : String) :
    (∀ v, cfg.lookup (kp ++ "_" ++ pyUpper key) = some v →
        get_config_value cfg kp key = Except.ok v)
    ∧ (cfg.lookup (kp ++ "_" ++ pyUpper key) = none →
        get_config_value cfg kp key = Except.error ScrapeError.configurationMissing) := by
  constructor
  · intro v hv
    simp [get_config_value, hv]
  · intro hnone
    simp [get_config_value, hnone]

/-- Witness for `get_config_value_spec` on the configuration of the C7
fixture: the present key is returned and a missing key is the
`configurationMissing` error. -/
theorem get_config_value_spec_witness :
    get_config_value [("BILL_DATETIME_FORMAT", "%m/%d/%Y")] "BILL" "datetime_format"
      = Except.ok "%m/%d/%Y"
    ∧ get_config_value [("BILL_DATETIME_FORMAT", "%m/%d/%Y")] "BILL" "pupa_media"
      = Except.error ScrapeError.configurationMissing :=
  ⟨(get_config_value_spec [("BILL_DATETIME_FORMAT", "%m/%d/%Y")] "BILL"
      "datetime_format").1 "%m/%d/%Y" rfl,
   (get_config_value_spec [("BILL_DATETIME_FORMAT", "%m/%d/%Y")] "BILL"
      "pupa_media").2 rfl⟩

/-- C2: when the configuration resolves the logical field name to a label
text, `FieldAggregator.get_field_data` returns the accessor the record's
field-data index stores under that label text, and raises `SkipItem` (and
no other error) when the label text is absent from the index. -/
theorem get_field_data_spec {α : Type} (cfg : List (String × String)) (kp : String)
    (field_data : List (String × α)) (label lt : String)
    (hcfg : get_label_text cfg kp label = Except.ok lt) :
    (∀ v, field_data.lookup lt = some v →
        get_field_data cfg kp field_data label = Except.ok v)
    ∧ (field_data.lookup lt = none →
        get_field_data cfg kp field_data label = Except.error ScrapeError.skipItem) := by
  constructor
  · intro v hv
    simp [get_field_data, hcfg, hv]
  · intro hnone
    simp [get_field_data, hcfg, hnone]

/-- Witness for `get_field_data_spec`: with the label `topic` configured as
`Topic:`, a record that indexes `Topic:` yields the stored accessor and a
record that does not raises `SkipItem`. -/
theorem get_field_data_spec_witness :
    get_field_data [("EVT_TABLE_TEXT_TOPIC", "Topic:")] "EVT_TABLE"
      [("Topic:", 42)] "topic" = Except.ok 42
    ∧ get_field_data [("EVT_TABLE_TEXT_TOPIC", "Topic:")] "EVT_TABLE"
      [("Name:", 7)] "topic" = Except.error ScrapeError.skipItem :=
  ⟨(get_field_data_spec [("EVT_TABLE_TEXT_TOPIC", "Topic:")] "EVT_TABLE"
      [("Topic:", 42)] "topic" "Topic:" rfl).1 42 rfl,
   (get_field_data_spec [("EVT_TABLE_TEXT_TOPIC", "Topic:")] "EVT_TABLE"
      [("Name:", 7)] "topic" "Topic:" rfl).2 rfl⟩

/-- C4 (counterexample): the claim fails for a client session state that
itself contains the submit-search button control.  `get_pagination_query`
pops the two one-time-use controls from the query but then merges the query
back over `self.client.state`, so a control present in the client state
reappears in the result. -/
theorem get_pagination_query_counterexample :
    get_pagination_query
      (dictInsert dictEmpty "ctl00$ContentPlaceHolder1$btnSearch2" "Search Legislation")
      (fun _ => "") none none dictEmpty
      "ctl00$ContentPlaceHolder1$btnSearch2" = some "Search Legislation" := rfl

/-- C4 (amended): whenever the client session state contains neither
one-time-use control, the mapping `BillsSearchForm.get_pagination_query`
returns contains neither the initial submit-search button control nor the
max-results selector control. -/
theorem get_pagination_query_removes_controls (state : PyDict)
    (configval : String → String) (time_period bodies : Option String)
    (kwargs : PyDict)
    (hbtn : state "ctl00$ContentPlaceHolder1$btnSearch2" = none)
    (hmax : state "ctl00_ContentPlaceHolder1_lstMax_ClientState" = none) :
    get_pagination_query state configval time_period bodies kwargs
      "ctl00$ContentPlaceHolder1$btnSearch2" = none
    ∧ get_pagination_query state configval time_period bodies kwargs
      "ctl00_ContentPlaceHolder1_lstMax_ClientState" = none := by
  constructor
  · simp [get_pagination_query, dictUpdate, dictPop, hbtn]
  · have hne : "ctl00_ContentPlaceHolder1_lstMax_ClientState"
        ≠ "ctl00$ContentPlaceHolder1$btnSearch2" := by decide
    simp [get_pagination_query, dictUpdate, dictPop, hmax, hne]

/-- Witness for `get_pagination_query_removes_controls` at the empty client
state. -/
theorem get_pagination_query_removes_controls_witness :
    get_pagination_query dictEmpty (fun _ => "") none none dictEmpty
      "ctl00$ContentPlaceHolder1$btnSearch2" = none
    ∧ get_pagination_query dictEmpty (fun _ => "") none none dictEmpty
      "ctl00_ContentPlaceHolder1_lstMax_ClientState" = none :=
  get_pagination_query_removes_controls dictEmpty (fun _ => "") none none
    dictEmpty rfl rfl

/-- C5: every key the caller overrides is mapped to the caller's value in
the queries built by `BillsSearchForm.get_query_simple` and
`BillsSearchForm.get_query_advanced`: the override wins over both the
static configured parameters and the client session state. -/
theorem caller_overrides_win (state : PyDict) (configval : String → String)
    (time_period bodies : Option String) (kwargs : PyDict) (k v : String)
    (hk : kwargs k = some v) :
    get_query_simple state configval time_period bodies kwargs k = some v
    ∧ get_query_advanced state configval time_period bodies kwargs k = some v := by
  constructor
  · simp [get_query_simple, dictUpdate, hk]
  · simp [get_query_advanced, dictUpdate, hk]

/-- Witness for `caller_overrides_win`: overriding the max-results selector
(statically `All` in the advanced query) with `100` makes both queries carry
`100`, over a client state that also carries the key. -/
theorem caller_overrides_win_witness :
    get_query_simple
      (dictInsert dictEmpty "ctl00$ContentPlaceHolder1$lstMax" "10")
      (fun _ => "") none none
      (dictInsert dictEmpty "ctl00$ContentPlaceHolder1$lstMax" "100")
      "ctl00$ContentPlaceHolder1$lstMax" = some "100"
    ∧ get_query_advanced
      (dictInsert dictEmpty "ctl00$ContentPlaceHolder1$lstMax" "10")
      (fun _ => "") none none
      (dictInsert dictEmpty "ctl00$ContentPlaceHolder1$lstMax" "100")
      "ctl00$ContentPlaceHolder1$lstMax" = some "100" :=
  caller_overrides_win
    (dictInsert dictEmpty "ctl00$ContentPlaceHolder1$lstMax" "10")
    (fun _ => "") none none
    (dictInsert dictEmpty "ctl00$ContentPlaceHolder1$lstMax" "100")
    "ctl00$ContentPlaceHolder1$lstMax" "100" rfl

/-- C9: the query built by `BillsSearchForm.get_query_advanced` — and hence
by `BillsSearchForm.get_query`, which delegates to it — does not depend on
the `bodies` argument: two calls differing only in `bodies` return equal
mappings. -/
theorem get_query_advanced_ignores_bodies (state : PyDict)
    (configval : String → String) (time_period b1 b2 : Option String)
    (kwargs : PyDict) :
    get_query_advanced state configval time_period b1 kwargs
      = get_query_advanced state configval time_period b2 kwargs
    ∧ get_query state configval time_period b1 kwargs
      = get_query state configval time_period b2 kwargs :=
  ⟨rfl, rfl⟩

/-- C7: with the datetime format configured as `%m/%d/%Y` and field text
`03/14/2019`, `DateGetter._get_date` parses the date 2019-03-14, and
rendering it with strftime `%Y-%m-%d` (as `MembershipAdapter.stringify_date`
does) reproduces `2019-03-14`. -/
theorem date_parse_format_roundtrip :
    date_getter_get_date
      [("BILL_DATETIME_FORMAT", "%m/%d/%Y"), ("BILL_TEXT_DATE", "Date")]
      "BILL" [("Date", some { blank := false, text := "03/14/2019" })] "date"
      = Except.ok (some { year := 2019, month := 3, day := 14 })
    ∧ strftime_Ymd { year := 2019, month := 3, day := 14 } = "2019-03-14"
    ∧ stringify_date (some { year := 2019, month := 3, day := 14 })
      = Except.ok "2019-03-14" :=
  ⟨rfl, rfl, rfl⟩

/-- C1: iterating the aggregator's declared field generator units yields one
(key, value) pair per declared unit, in declaration order, omitting exactly
the units whose evaluation raised `SkipItem`; with the declared keys
pairwise distinct the resulting sequence has no duplicate keys, so
converting it to a key-to-value mapping loses nothing (every emitted pair is
recovered by lookup). -/
theorem aggregator_iteration_contract {α : Type} (units : List (String × Option α))
    (hnodup : (units.map Prod.fst).Nodup) :
    (aggregator_items units).map Prod.fst
      = (units.filter (fun u => u.2.isSome)).map Prod.fst
    ∧ (∀ (k : String) (v : α),
        (k, v) ∈ aggregator_items units ↔ (k, some v) ∈ units)
    ∧ ((aggregator_items units).map Prod.fst).Nodup
    ∧ (∀ (k : String) (v : α), (k, v) ∈ aggregator_items units →
        (aggregator_items units).lookup k = some v) := by
  have hkeysnd : ((aggregator_items units).map Prod.fst).Nodup := by
    rw [aggregator_items_keys]
    exact List.Nodup.sublist
      (List.Sublist.map Prod.fst (List.filter_sublist units)) hnodup
  refine ⟨aggregator_items_keys units, fun k v => aggregator_items_mem units k v,
    hkeysnd, ?_⟩
  intro k v hm
  exact lookup_eq_some_of_mem _ k v hkeysnd hm

/-- Witness for `aggregator_iteration_contract` on the unit list of a bill
record whose `file_created` generator skipped. -/
theorem aggregator_iteration_contract_witness :
    (aggregator_items
        [("intro_date", some 1), ("file_created", (none : Option Nat)),
         ("sources", some 3)]).map Prod.fst = ["intro_date", "sources"]
    ∧ ((aggregator_items
        [("intro_date", some 1), ("file_created", (none : Option Nat)),
         ("sources", some 3)]).map Prod.fst).Nodup
    ∧ (aggregator_items
        [("intro_date", some 1), ("file_created", (none : Option Nat)),
         ("sources", some 3)]).lookup "sources" = some 3 := by
  have h := aggregator_iteration_contract
    [("intro_date", some 1), ("file_created", (none : Option Nat)),
     ("sources", some 3)] (by decide)
  exact ⟨by decide, h.2.2.1, h.2.2.2 "sources" 3 (by decide)⟩

/-- C6: `BillsSearchForm.default_search_is_simple` returns `false` exactly
when the fetched document contains an element whose `name` attribute equals
the configured `advanced_time_period_el_name` value, and returns `true` when
the document contains no such element. -/
theorem default_search_is_simple_spec (configval : String → String)
    (doc : List Element) :
    (default_search_is_simple configval doc = false
      ↔ ∃ el ∈ doc, el.name = some (configval "advanced_time_period_el_name"))
    ∧ (default_search_is_simple configval doc = true
      ↔ ¬∃ el ∈ doc, el.name = some (configval "advanced_time_period_el_name")) := by
  have hfilter := filter_isEmpty_eq_not_any
    (fun el => el.name == some (configval "advanced_time_period_el_name")) doc
  have hex : doc.any (fun el => el.name == some (configval "advanced_time_period_el_name")) = true
      ↔ ∃ el ∈ doc, el.name = some (configval "advanced_time_period_el_name") := by
    rw [List.any_eq_true]
    constructor
    · rintro ⟨el, hmem, hp⟩
      exact ⟨el, hmem, by simpa using hp⟩
    · rintro ⟨el, hmem, hp⟩
      exact ⟨el, hmem, by simpa using hp⟩
  have hiff : default_search_is_simple configval doc = false
      ↔ doc.any (fun el => el.name == some (configval "advanced_time_period_el_name")) = true := by
    simp only [default_search_is_simple, hfilter]
    cases doc.any (fun el => el.name == some (configval "advanced_time_period_el_name")) <;> simp
  have hiff2 : default_search_is_simple configval doc = true
      ↔ doc.any (fun el => el.name == some (configval "advanced_time_period_el_name")) = false := by
    simp only [default_search_is_simple, hfilter]
    cases doc.any (fun el => el.name == some (configval "advanced_time_period_el_name")) <;> simp
  refine ⟨hiff.trans hex, hiff2.trans ?_⟩
  rw [← Bool.not_eq_true]
  exact not_congr hex

/-- C8: within one conversion run the organization cache is keyed and
append-only: a cache hit returns the previously cached object with
`created = False` and an unchanged cache; a cache miss creates the
organization, appends it under its name, returns it with `created = True`,
and every pre-existing cache entry is still found unchanged afterwards. -/
theorem get_org_cache_spec (org_cache : List (String × Organization))
    (classify : String → String) (person_sources : List PupaSource)
    (org_name : String) :
    (∀ org, org_cache.lookup org_name = some org →
        get_org org_cache classify person_sources org_name
          = { created := false, org := org, cache := org_cache,
              detailBranch := false })
    ∧ (org_cache.lookup org_name = none →
        (get_org org_cache classify person_sources org_name).created = true
        ∧ (get_org org_cache classify person_sources org_name).cache
            = org_cache ++ [(org_name,
                (get_org org_cache classify person_sources org_name).org)]
        ∧ (get_org org_cache classify person_sources org_name).cache.lookup org_name
            = some (get_org org_cache classify person_sources org_name).org
        ∧ ∀ k v, org_cache.lookup k = some v →
            (get_org org_cache classify person_sources org_name).cache.lookup k
              = some v) := by
  constructor
  · intro org h
    simp [get_org, h]
  · intro h
    have hres : get_org org_cache classify person_sources org_name
        = { created := true,
            org := { name := org_name, classification := classify org_name,
                     sources := person_sources },
            cache := org_cache ++ [(org_name,
              { name := org_name, classification := classify org_name,
                sources := person_sources })],
            detailBranch := false } := by
      simp [get_org, h]
    refine ⟨by rw [hres], by rw [hres], ?_, ?_⟩
    · rw [hres]
      rw [lookup_append_of_none org_cache _ org_name h]
      simp [List.lookup]
    · intro k v hkv
      rw [hres]
      exact lookup_append_of_some _ _ k v hkv

/-- Witness for `get_org_cache_spec`: the first `get_org` call for
`Planning` creates the organization, the second returns the cached object
with `created = False`. -/
theorem get_org_cache_spec_witness :
    (get_org [] (fun _ => "committee")
        [{ url := "u", note := "bills search" }] "Planning").created = true
    ∧ get_org [("Planning",
        { name := "Planning", classification := "committee",
          sources := [{ url := "u", note := "bills search" }] })]
        (fun _ => "committee") [{ url := "u", note := "bills search" }] "Planning"
      = { created := false,
          org := { name := "Planning", classification := "committee",
                   sources := [{ url := "u", note := "bills search" }] },
          cache := [("Planning",
            { name := "Planning", classification := "committee",
              sources := [{ url := "u", note := "bills search" }] })],
          detailBranch := false } :=
  ⟨((get_org_cache_spec [] (fun _ => "committee")
      [{ url := "u", note := "bills search" }] "Planning").2 rfl).1,
   (get_org_cache_spec [("Planning",
        { name := "Planning", classification := "committee",
          sources := [{ url := "u", note := "bills search" }] })]
      (fun _ => "committee") [{ url := "u", note := "bills search" }] "Planning").1
      { name := "Planning", classification := "committee",
        sources := [{ url := "u", note := "bills search" }] } rfl⟩

/-- C10: `get_org` returns right after creating and caching a new
organization, so every newly created organization carries exactly the
person's full source list, and the trailing branch that would add only the
sources whose note contains `detail` never executes on any path. -/
theorem get_org_detail_branch_unreachable (org_cache : List (String × Organization))
    (classify : String → String) (person_sources : List PupaSource)
    (org_name : String) :
    (get_org org_cache classify person_sources org_name).detailBranch = false
    ∧ (org_cache.lookup org_name = none →
        (get_org org_cache classify person_sources org_name).org.sources
          = person_sources) := by
  cases h : org_cache.lookup org_name <;> simp [get_org, h]

/-- Witness for `get_org_detail_branch_unreachable`: creating `Council` with
a source whose note mentions `detail` takes the early return; the sources
are exactly the person's list, not augmented by the detail-note filter. -/
theorem get_org_detail_branch_unreachable_witness :
    (get_org [] (fun _ => "legislature")
        [{ url := "http://x/PersonDetail.aspx", note := "person detail" }]
        "Council").detailBranch = false
    ∧ (get_org [] (fun _ => "legislature")
        [{ url := "http://x/PersonDetail.aspx", note := "person detail" }]
        "Council").org.sources
      = [{ url := "http://x/PersonDetail.aspx", note := "person detail" }] :=
  ⟨(get_org_detail_branch_unreachable [] (fun _ => "legislature")
      [{ url := "http://x/PersonDetail.aspx", note := "person detail" }]
      "Council").1,
   (get_org_detail_branch_unreachable [] (fun _ => "legislature")
      [{ url := "http://x/PersonDetail.aspx", note := "person detail" }]
      "Council").2 rfl⟩

end Legistar
